import Mathlib

/-!
Shallow embedding of the GitLab platform-adaptation layer of this repository
(context resolver, token provider, permission checker, API client, branch
helper, prepare entrypoint output), together with theorems settling the
frozen claims about it.

Conventions used throughout:
* an optional environment variable / JS `string | undefined` value is an
  `Option String`; JS truthiness on such a value (`undefined` and `""` are
  falsy) is the `truthy` predicate below;
* a JS number that may be `NaN` (result of `parseInt`) is an `Option Int`
  with `none` standing for `NaN`;
* fallible asynchronous code is embedded as a pure function returning
  `Except`; a `fetch` call's outcome is a `FetchOutcome`: either a
  transport-level failure (promise rejection) or an HTTP response with a
  status code and a body — note `fetch` resolves successfully on any HTTP
  status, including non-2xx.
-/

/-- JS truthiness of a `string | undefined` value: `undefined` and the empty
string are falsy, every other string is truthy. -/
def truthy : Option String → Bool
  | none => false
  | some s => s ≠ ""

/-- JS `a || b` on `string | undefined` values: `a` when truthy, else `b`. -/
def jsOr (a b : Option String) : Option String :=
  if truthy a then a else b

/-- JS `a || d` where the final fallback `d` is a string literal, so the
result is always a string. -/
def jsOrD (a : Option String) (d : String) : String :=
  if truthy a then a.getD "" else d

theorem truthy_getD {o : Option String} (h : truthy o = true) : o.getD "" ≠ "" := by
  cases o with
  | none => simp [truthy] at h
  | some s => simpa [truthy] using h

/-- The environment variables read by `getGitLabToken`
(src/platforms/gitlab/token.ts). All fields default to `none` (absent). -/
structure TokenEnv where
  GITLAB_TOKEN : Option String := none
  GITLAB_ACCESS_TOKEN : Option String := none
  PRIVATE_TOKEN : Option String := none
  CI_JOB_TOKEN : Option String := none
  GITLAB_CI : Option String := none
deriving DecidableEq, Repr

/-- The error message thrown by `getGitLabToken` when no source yields a
token (src/platforms/gitlab/token.ts lines 32-38). -/
def noGitLabTokenMsg : String :=
  "No GitLab token found. Please provide one of:\n" ++
    "- GITLAB_TOKEN environment variable\n" ++
    "- GITLAB_ACCESS_TOKEN environment variable\n" ++
    "- PRIVATE_TOKEN environment variable\n" ++
    "Or ensure CI_JOB_TOKEN is available in GitLab CI/CD environment"

/-- Embedding of `getGitLabToken` (src/platforms/gitlab/token.ts lines
13-39): the explicit token is `GITLAB_TOKEN || GITLAB_ACCESS_TOKEN ||
PRIVATE_TOKEN`; when truthy it is returned; otherwise the CI job token is
returned when it is truthy and `GITLAB_CI === "true"`; otherwise the
provider throws. -/
def getGitLabToken (env : TokenEnv) : Except String String :=
  let explicitToken := jsOr env.GITLAB_TOKEN (jsOr env.GITLAB_ACCESS_TOKEN env.PRIVATE_TOKEN)
  if truthy explicitToken then
    .ok (explicitToken.getD "")
  else if truthy env.CI_JOB_TOKEN && env.GITLAB_CI == some "true" then
    .ok (env.CI_JOB_TOKEN.getD "")
  else
    .error noGitLabTokenMsg

/-- The claim's description of explicit-token resolution: the three explicit
variables checked in list order, first present (truthy) one wins. -/
def firstExplicitToken (env : TokenEnv) : Option String :=
  if truthy env.GITLAB_TOKEN then env.GITLAB_TOKEN
  else if truthy env.GITLAB_ACCESS_TOKEN then env.GITLAB_ACCESS_TOKEN
  else if truthy env.PRIVATE_TOKEN then env.PRIVATE_TOKEN
  else none

/-- Outcome of one `fetch` call: a transport-level failure (the promise
rejects) or an HTTP response. `fetch` resolves with a response for every
HTTP status, 2xx or not. -/
inductive FetchOutcome where
  | transportError (msg : String)
  | response (status : Nat) (body : String)
deriving DecidableEq, Repr

/-- The WHATWG `Response.ok` flag: status in the inclusive range 200-299. -/
def responseOk (status : Nat) : Bool :=
  200 ≤ status && status ≤ 299

/-- Embedding of `validateGitLabToken` (src/platforms/gitlab/token.ts lines
44-60): the body issues one `fetch` of `baseUrl ++ "/user"` carrying the
token in the `PRIVATE-TOKEN` header and returns `response.ok`; the
surrounding try/catch turns a transport failure into `false`. The result
depends only on the fetch outcome, never on the token string itself. -/
def validateGitLabToken (outcome : FetchOutcome) : Bool :=
  match outcome with
  | .transportError _ => false
  | .response status _ => responseOk status

/-- The `project_access` sub-object of a GitLab project's `permissions`
payload; `access_level` may be absent. -/
structure ProjectAccess where
  access_level : Option Nat := none
deriving DecidableEq, Repr

/-- The `permissions` object returned by `getUserPermissions`;
`project_access` may be `null`. -/
structure GitLabPermissions where
  project_access : Option ProjectAccess := none
deriving DecidableEq, Repr

/-- Embedding of `permissions.project_access?.access_level || 0`
(src/platforms/gitlab/validation/permissions.ts line 25): absent
`project_access` or absent `access_level` (and a literal 0, which is falsy)
all collapse to 0. -/
def accessLevelOf (p : GitLabPermissions) : Nat :=
  match p.project_access with
  | none => 0
  | some pa => pa.access_level.getD 0

/-- Embedding of `checkWritePermissions`
(src/platforms/gitlab/validation/permissions.ts lines 11-33). The argument
is the outcome of `client.getUserPermissions()`: `.error` for a rejected
lookup (transport or parse failure), `.ok none` for a resolved lookup whose
`permissions` value is `undefined` (accessing `.project_access` on it then
raises a TypeError inside the `try`), `.ok (some p)` for a resolved
permissions object. Every failure path is caught and yields `false`; the
function is total, so it never throws. -/
def checkWritePermissions (lookup : Except String (Option GitLabPermissions)) : Bool :=
  match lookup with
  | .error _ => false
  | .ok none => false
  | .ok (some p) => 30 ≤ accessLevelOf p

/-- JS `parseInt(s)` (radix 10, as used on CI-provided decimal ids): skip
leading whitespace, optional sign, then the longest leading run of decimal
digits; no digits means `NaN`, modelled as `none`. (The hexadecimal-prefix
corner of `parseInt` is irrelevant to decimal CI identifiers and is not
modelled.) -/
def parseIntJS (s : String) : Option Int :=
  let cs := s.data.dropWhile (fun c => c = ' ' ∨ c = '\t' ∨ c = '\n' ∨ c = '\r')
  let signed : Bool × List Char :=
    match cs with
    | '-' :: r => (true, r)
    | '+' :: r => (false, r)
    | r => (false, r)
  let ds := signed.2.takeWhile Char.isDigit
  if ds.isEmpty then none
  else
    let n : Nat := ds.foldl (fun acc c => acc * 10 + (c.toNat - '0'.toNat)) 0
    some (if signed.1 then -(n : Int) else (n : Int))

/-- The GitLab CI/CD environment variables read by `parseGitLabContext`
(the `GitLabEnvironment` interface of the context resolver). All fields
default to `none` (absent). -/
structure GitLabEnv where
  CI_PIPELINE_ID : Option String := none
  CI_JOB_ID : Option String := none
  CI_PROJECT_ID : Option String := none
  CI_PROJECT_NAME : Option String := none
  CI_PROJECT_NAMESPACE : Option String := none
  CI_PROJECT_PATH : Option String := none
  CI_MERGE_REQUEST_IID : Option String := none
  CI_MERGE_REQUEST_TARGET_BRANCH_NAME : Option String := none
  CI_MERGE_REQUEST_SOURCE_BRANCH_NAME : Option String := none
  CI_MERGE_REQUEST_EVENT_TYPE : Option String := none
  CI_COMMIT_REF_NAME : Option String := none
  CI_COMMIT_SHA : Option String := none
  GITLAB_USER_LOGIN : Option String := none
  GITLAB_USER_NAME : Option String := none
  PROMPT : Option String := none
  TRIGGER_PHRASE : Option String := none
  ASSIGNEE_TRIGGER : Option String := none
  LABEL_TRIGGER : Option String := none
  BASE_BRANCH : Option String := none
  BRANCH_PREFIX : Option String := none
  USE_STICKY_COMMENT : Option String := none
  USE_COMMIT_SIGNING : Option String := none
  ALLOWED_BOTS : Option String := none
deriving DecidableEq, Repr

/-- The event classification of a GitLab platform context. -/
inductive GitLabEventType where
  | merge_request
  | issue
  | pipeline
  | push
deriving DecidableEq, Repr

/-- The `repository` descriptor of a platform context. `fullName` is typed
`string` in the source but is assigned `env.CI_PROJECT_PATH!` (a non-null
assertion with no runtime effect), so its runtime value may be `undefined`;
it is therefore modelled as `Option String`. -/
structure RepoDescriptor where
  owner : String
  name : String
  fullName : Option String
deriving DecidableEq, Repr

/-- The `inputs` sub-record of a GitLab platform context. -/
structure ContextInputs where
  prompt : String
  triggerPhrase : String
  assigneeTrigger : String
  labelTrigger : String
  baseBranch : Option String
  branchPrefix : String
  useStickyComment : Bool
  useCommitSigning : Bool
  allowedBots : String
deriving DecidableEq, Repr

/-- The `GitLabPlatformContext` produced by the context resolver. Numeric
fields produced by `parseInt` are `Option Int` (`none` = `NaN`); optional
numeric fields are `Option (Option Int)` (outer `none` = the field is
`undefined`). The raw `payload` snapshot (an opaque debugging passthrough
of the same environment strings) is not referenced by any claim and is
omitted from the embedding. -/
structure GitLabPlatformContext where
  platform : String
  runId : String
  repository : RepoDescriptor
  actor : String
  projectId : Option Int
  eventType : GitLabEventType
  mergeRequestIid : Option (Option Int)
  issueIid : Option (Option Int)
  pipelineId : Option (Option Int)
  inputs : ContextInputs
deriving DecidableEq, Repr

/-- Embedding of `parseGitLabContext` (the GitLab context resolver): checks
`CI_PROJECT_ID`, then `CI_PROJECT_NAME`/`CI_PROJECT_NAMESPACE` (JS
truthiness, so an empty string counts as missing); classifies the event
(merge-request iid present, else commit ref present and different from the
merge-target ref, else pipeline); then builds the context record.
`CI_PROJECT_PATH` is never validated. -/
def parseGitLabContext (env : GitLabEnv) : Except String GitLabPlatformContext :=
  if !truthy env.CI_PROJECT_ID then
    .error "CI_PROJECT_ID environment variable is required for GitLab context"
  else if !truthy env.CI_PROJECT_NAME || !truthy env.CI_PROJECT_NAMESPACE then
    .error "CI_PROJECT_NAME and CI_PROJECT_NAMESPACE are required"
  else
    let eventType : GitLabEventType :=
      if truthy env.CI_MERGE_REQUEST_IID then .merge_request
      else if truthy env.CI_COMMIT_REF_NAME &&
          env.CI_COMMIT_REF_NAME != env.CI_MERGE_REQUEST_TARGET_BRANCH_NAME then .push
      else .pipeline
    .ok {
      platform := "gitlab"
      runId := jsOrD env.CI_JOB_ID (jsOrD env.CI_PIPELINE_ID "unknown")
      repository := {
        owner := env.CI_PROJECT_NAMESPACE.getD ""
        name := env.CI_PROJECT_NAME.getD ""
        fullName := env.CI_PROJECT_PATH }
      actor := jsOrD env.GITLAB_USER_LOGIN (jsOrD env.GITLAB_USER_NAME "unknown")
      projectId := parseIntJS (env.CI_PROJECT_ID.getD "")
      eventType := eventType
      mergeRequestIid :=
        if truthy env.CI_MERGE_REQUEST_IID then
          some (parseIntJS (env.CI_MERGE_REQUEST_IID.getD ""))
        else none
      issueIid := none
      pipelineId :=
        if truthy env.CI_PIPELINE_ID then
          some (parseIntJS (env.CI_PIPELINE_ID.getD ""))
        else none
      inputs := {
        prompt := jsOrD env.PROMPT ""
        triggerPhrase := jsOrD env.TRIGGER_PHRASE "@claude"
        assigneeTrigger := jsOrD env.ASSIGNEE_TRIGGER ""
        labelTrigger := jsOrD env.LABEL_TRIGGER ""
        baseBranch := jsOr env.BASE_BRANCH env.CI_MERGE_REQUEST_TARGET_BRANCH_NAME
        branchPrefix := jsOrD ( GitLabEnv.BRANCH_PREFIX env) "claude/"
        useStickyComment := env.USE_STICKY_COMMENT == some "true"
        useCommitSigning := env.USE_COMMIT_SIGNING == some "true"
        allowedBots := jsOrD env.ALLOWED_BOTS "" } }

theorem truthy_eq_some {o : Option String} (h : truthy o = true) : o = some (o.getD "") := by
  cases o with
  | none => simp [truthy] at h
  | some s => rfl

/-- Claim C5: token resolution is deterministic with a fixed priority.
Whenever one of the explicit variables (GITLAB_TOKEN, GITLAB_ACCESS_TOKEN,
PRIVATE_TOKEN, in that order, first truthy one wins) is set, its value is
returned — in particular also when the CI job token is present; a returned
token always agrees with the explicit choice unless no explicit variable is
set (so the job token is only ever returned when no explicit variable is
set); and when neither an explicit variable nor the job token yields a
value the provider fails with an error. -/
theorem getGitLabToken_priority (env : TokenEnv) :
    (∀ t, firstExplicitToken env = some t → getGitLabToken env = .ok t) ∧
    (∀ t, getGitLabToken env = .ok t →
      firstExplicitToken env = none ∨ firstExplicitToken env = some t) ∧
    (firstExplicitToken env = none → truthy env.CI_JOB_TOKEN = false →
      getGitLabToken env = .error noGitLabTokenMsg) := by
  have hchar : ∀ t, firstExplicitToken env = some t → getGitLabToken env = .ok t := by
    intro t ht
    unfold firstExplicitToken at ht
    unfold getGitLabToken jsOr
    cases h1 : truthy env.GITLAB_TOKEN <;>
      cases h2 : truthy env.GITLAB_ACCESS_TOKEN <;>
        cases h3 : truthy env.PRIVATE_TOKEN <;>
          simp_all
  have hnochar : firstExplicitToken env = none →
      getGitLabToken env =
        (if truthy env.CI_JOB_TOKEN && env.GITLAB_CI == some "true" then
          .ok (env.CI_JOB_TOKEN.getD "")
        else .error noGitLabTokenMsg) := by
    intro hnone
    unfold firstExplicitToken at hnone
    unfold getGitLabToken jsOr
    cases h1 : truthy env.GITLAB_TOKEN <;>
      cases h2 : truthy env.GITLAB_ACCESS_TOKEN <;>
        cases h3 : truthy env.PRIVATE_TOKEN <;>
          simp_all [truthy]
  refine ⟨hchar, ?_, ?_⟩
  · intro t ht
    cases hfe : firstExplicitToken env with
    | none => exact Or.inl rfl
    | some e =>
      have he := hchar e hfe
      rw [he] at ht
      have het : e = t := by simpa using ht
      subst het
      exact Or.inr rfl
  · intro hnone hjob
    rw [hnochar hnone]
    simp [hjob]

/-- A token environment with both an explicit token and a CI job token. -/
def tokenEnvBoth : TokenEnv :=
  { GITLAB_TOKEN := some "abc", CI_JOB_TOKEN := some "job", GITLAB_CI := some "true" }

theorem getGitLabToken_priority_witness :
    getGitLabToken tokenEnvBoth = .ok "abc" ∧
    getGitLabToken {} = .error noGitLabTokenMsg :=
  ⟨(getGitLabToken_priority tokenEnvBoth).1 "abc" rfl,
   (getGitLabToken_priority {}).2.2 rfl rfl⟩

/-- Claim C7: `validateGitLabToken` returns `true` iff the validation
endpoint answered with a 2xx status, and returns `false` (it cannot throw:
the embedding is total, mirroring the try/catch around the only fallible
call) whenever the request fails at the transport layer. The result does
not depend on the token: the token only shapes the request header, and the
embedding's result is a function of the fetch outcome alone. -/
theorem validateGitLabToken_spec (outcome : FetchOutcome) :
    (validateGitLabToken outcome = true ↔
      ∃ status body, outcome = .response status body ∧ 200 ≤ status ∧ status ≤ 299) ∧
    (∀ msg, outcome = .transportError msg → validateGitLabToken outcome = false) := by
  cases outcome <;> simp [validateGitLabToken, responseOk]

theorem validateGitLabToken_spec_witness :
    validateGitLabToken (.transportError "ECONNRESET") = false ∧
    validateGitLabToken (.response 200 "me") = true :=
  ⟨(validateGitLabToken_spec _).2 "ECONNRESET" rfl,
   (validateGitLabToken_spec _).1.mpr ⟨200, "me", rfl, by decide, by decide⟩⟩

/-- Claim C4: `checkWritePermissions` returns `true` exactly when the
permission lookup succeeded and the effective access level
(`project_access?.access_level || 0`) is at least the Developer tier (30);
every failing lookup yields `false`. The embedding is a total function, so
the checker never throws (the source wraps its whole body in try/catch). -/
theorem checkWritePermissions_spec (lookup : Except String (Option GitLabPermissions)) :
    (checkWritePermissions lookup = true ↔
      ∃ p, lookup = .ok (some p) ∧ 30 ≤ accessLevelOf p) ∧
    (∀ e, lookup = .error e → checkWritePermissions lookup = false) := by
  rcases lookup with e | p
  · simp [checkWritePermissions]
  · rcases p with _ | p <;> simp [checkWritePermissions]

theorem checkWritePermissions_spec_witness :
    checkWritePermissions (.error "fetch failed") = false ∧
    checkWritePermissions (.ok (some ⟨some ⟨some 30⟩⟩)) = true :=
  ⟨(checkWritePermissions_spec _).2 "fetch failed" rfl,
   (checkWritePermissions_spec _).1.mpr ⟨⟨some ⟨some 30⟩⟩, rfl, by decide⟩⟩

/-- Environment for the C3 counterexample: the three identity variables the
code validates are present, but `CI_PROJECT_PATH` is absent. -/
def envNoPath : GitLabEnv :=
  { CI_PROJECT_ID := some "123", CI_PROJECT_NAME := some "demo",
    CI_PROJECT_NAMESPACE := some "grp" }

/-- Claim C3 counterexample: with `CI_PROJECT_PATH` absent (a required
identifying field per the claim), `parseGitLabContext` does not fail — it
returns a context whose `repository.fullName` is absent, i.e. a partially
populated context. -/
theorem parseGitLabContext_fullName_counterexample :
    Except.map (fun c => c.repository.fullName) (parseGitLabContext envNoPath) =
      .ok none := by
  rfl

/-- Claim C3 (amended): `parseGitLabContext` fails with an error naming the
missing field when `CI_PROJECT_ID` is absent/empty, or when
`CI_PROJECT_NAME` or `CI_PROJECT_NAMESPACE` is absent/empty; every context
it returns has those three identity fields present and non-empty
(`repository.owner` and `repository.name` non-empty). The project path
(`repository.fullName`) is NOT validated and may be absent in a returned
context. -/
theorem parseGitLabContext_required (env : GitLabEnv) :
    (truthy env.CI_PROJECT_ID = false →
      parseGitLabContext env =
        .error "CI_PROJECT_ID environment variable is required for GitLab context") ∧
    (truthy env.CI_PROJECT_ID = true →
      (truthy env.CI_PROJECT_NAME && truthy env.CI_PROJECT_NAMESPACE) = false →
      parseGitLabContext env =
        .error "CI_PROJECT_NAME and CI_PROJECT_NAMESPACE are required") ∧
    (∀ ctx, parseGitLabContext env = .ok ctx →
      truthy env.CI_PROJECT_ID = true ∧
      ctx.repository.owner ≠ "" ∧ ctx.repository.name ≠ "") := by
  refine ⟨?_, ?_, ?_⟩
  · intro h1
    unfold parseGitLabContext
    simp [h1]
  · intro h1 h2
    unfold parseGitLabContext
    rw [Bool.and_eq_false_iff] at h2
    rcases h2 with h2 | h2 <;> simp [h1, h2]
  · intro ctx hctx
    unfold parseGitLabContext at hctx
    by_cases h1 : truthy env.CI_PROJECT_ID
    · by_cases h2 : truthy env.CI_PROJECT_NAME
      · by_cases h3 : truthy env.CI_PROJECT_NAMESPACE
        · simp only [h1, h2, h3, Bool.not_true, Bool.or_self,
            Bool.false_or, Bool.or_false, Bool.false_eq_true, if_false] at hctx
          rw [Except.ok.injEq] at hctx
          subst hctx
          exact ⟨h1, truthy_getD h3, truthy_getD h2⟩
        · simp [h1, h2, h3] at hctx
      · simp [h1, h2] at hctx
    · simp [h1] at hctx

theorem parseGitLabContext_required_witness :
    parseGitLabContext {} =
      .error "CI_PROJECT_ID environment variable is required for GitLab context" :=
  (parseGitLabContext_required {}).1 rfl

/-- Claim C6: for every environment snapshot accepted by
`parseGitLabContext`, event classification follows the stated precedence: a
present (truthy) merge-request iid yields `merge_request` regardless of the
other fields; otherwise a present commit reference that differs from the
merge-target reference — including when the target reference is unset —
yields `push`; otherwise (commit reference absent/empty, or equal to the
target reference) the result is `pipeline`. -/
theorem parseGitLabContext_eventType (env : GitLabEnv) (ctx : GitLabPlatformContext)
    (h : parseGitLabContext env = .ok ctx) :
    (truthy env.CI_MERGE_REQUEST_IID = true → ctx.eventType = .merge_request) ∧
    (truthy env.CI_MERGE_REQUEST_IID = false →
      ∀ r, env.CI_COMMIT_REF_NAME = some r → r ≠ "" →
        env.CI_MERGE_REQUEST_TARGET_BRANCH_NAME ≠ some r →
        ctx.eventType = .push) ∧
    (truthy env.CI_MERGE_REQUEST_IID = false →
      (truthy env.CI_COMMIT_REF_NAME = false ∨
        env.CI_COMMIT_REF_NAME = env.CI_MERGE_REQUEST_TARGET_BRANCH_NAME) →
      ctx.eventType = .pipeline) := by
  unfold parseGitLabContext at h
  by_cases h1 : truthy env.CI_PROJECT_ID
  · by_cases h2 : truthy env.CI_PROJECT_NAME
    · by_cases h3 : truthy env.CI_PROJECT_NAMESPACE
      · simp only [h1, h2, h3, Bool.not_true, Bool.or_self,
          Bool.false_or, Bool.or_false, Bool.false_eq_true, if_false] at h
        rw [Except.ok.injEq] at h
        subst h
        refine ⟨?_, ?_, ?_⟩
        · intro hmr
          simp [hmr]
        · intro hmr r hr hre hneq
          have hneq' : (some r != env.CI_MERGE_REQUEST_TARGET_BRANCH_NAME) = true := by
            simp [bne_iff_ne]
            exact fun hc => hneq hc.symm
          simp only [hmr, hr, Bool.false_eq_true, if_false]
          simp [truthy, hre, hneq']
        · intro hmr hcase
          rcases hcase with hc | hc
          · simp [hmr, hc]
          · simp [hmr, hc]
      · simp [h1, h2, h3] at h
    · simp [h1, h2] at h
  · simp [h1] at h

/-- Environment for end-to-end scenario 2 of the spec: no merge-request
iid, a commit ref `"feature"`, no target-branch variable. -/
def envScenario2 : GitLabEnv :=
  { CI_PROJECT_ID := some "123", CI_PROJECT_NAME := some "demo",
    CI_PROJECT_NAMESPACE := some "grp", CI_COMMIT_REF_NAME := some "feature" }

theorem parseGitLabContext_eventType_witness :
    Except.map (fun c => c.eventType) (parseGitLabContext envScenario2) =
      .ok GitLabEventType.push := by
  obtain ⟨c, hc⟩ : ∃ c, parseGitLabContext envScenario2 = .ok c := ⟨_, rfl⟩
  have hp : c.eventType = GitLabEventType.push :=
    (parseGitLabContext_eventType envScenario2 c hc).2.1 rfl "feature" rfl
      (by decide) (by simp [envScenario2])
  rw [hc]
  simp [Except.map, hp]

/-- The retry configuration value object passed to the Backoff Retrier
(maxAttempts, initial delay, delay cap, backoff factor, all in the source's
units). The delay fields shape timing only, not values. -/
structure RetryPolicy where
  maxAttempts : Nat
  initialDelayMs : Nat
  maxDelayMs : Nat
  backoffFactor : Nat
deriving DecidableEq, Repr

/-- The fixed policy used by every network-bound call in this repository:
3 attempts, 1s initial delay, 5s cap, factor 2. -/
def fixedRetryPolicy : RetryPolicy :=
  { maxAttempts := 3, initialDelayMs := 1000, maxDelayMs := 5000, backoffFactor := 2 }

/-- Recursion over the remaining extra attempts: run the operation on the
current attempt index; on failure with attempts left, retry on the next
index; on the last attempt, propagate the result unchanged. Returns the
result together with the number of attempts performed. -/
def retryGo (op : Nat → Except ε α) (i : Nat) : Nat → Except ε α × Nat
  | 0 => (op i, i + 1)
  | n + 1 =>
    match op i with
    | .ok a => (.ok a, i + 1)
    | .error _ => retryGo op (i + 1) n

/-- Modelled from the spec: the Backoff Retrier `retryWithBackoff`
(src/utils/retry.ts, imported by the API client and the MCP server, is not
among the provided sources). Per §4.1 of the spec: invoke the operation; on
failure, if attempts consumed < maxAttempts, sleep for the (exponentially
growing, capped) delay and retry; once all attempts are exhausted the last
failure is propagated to the caller unchanged. Sleeping affects timing
only, so delays are not modelled; the operation receives the 0-based
attempt index, standing for the successive outcomes of a fallible
asynchronous action. -/
def retryWithBackoff (op : Nat → Except ε α) (policy : RetryPolicy) : Except ε α × Nat :=
  retryGo op 0 (policy.maxAttempts - 1)

/-- Turn one `fetch` outcome into the retried operation's result as seen by
`retryWithBackoff` in `GitLabApiClient.makeRequest`
(src/platforms/gitlab/api/client.ts lines 83-100): the operation passed to
the retrier is a bare `fetch`, whose promise rejects only on transport
errors — an HTTP response with any status, 2xx or not, is a SUCCESS of the
retried operation. -/
def fetchResolve : FetchOutcome → Except String (Nat × String)
  | .transportError msg => .error msg
  | .response status body => .ok (status, body)

/-- Embedding of `GitLabApiClient.makeRequest`
(src/platforms/gitlab/api/client.ts lines 77-108): run the bare fetch
through `retryWithBackoff` with the fixed policy; afterwards — outside the
retry loop — check `response.ok` and throw
`GitLab API error <status>: <body>` on a non-2xx response. `outcomes i` is
the transport's answer to the (i+1)-th fetch attempt; the returned `Nat`
is the number of fetch attempts performed. URL and header construction
carry no control flow and are not modelled. -/
def makeRequest (outcomes : Nat → FetchOutcome) : Except String (Nat × String) × Nat :=
  match retryWithBackoff (fun i => fetchResolve (outcomes i)) fixedRetryPolicy with
  | (.error msg, n) => (.error msg, n)
  | (.ok (status, body), n) =>
    if responseOk status then (.ok (status, body), n)
    else (.error ("GitLab API error " ++ toString status ++ ": " ++ body), n)

/-- The request sequence of claim C1: first two responses are 5xx, the
third is 2xx. -/
def c1Outcomes : Nat → FetchOutcome
  | 0 => .response 500 "Internal Server Error"
  | 1 => .response 502 "Bad Gateway"
  | _ => .response 200 "ok"

/-- Claim C1 is violated by the code: on the sequence 500, 502, 200 the
claim (and spec §4.1/§7) promises three attempts and final success, but
`makeRequest` passes a bare `fetch` to the retrier — `fetch` resolves on a
non-2xx status, so the retrier counts the 500 response as a success of the
retried operation and performs exactly one attempt; the `response.ok`
check, sitting after the retry loop, then throws immediately with the
status and body. -/
theorem makeRequest_c1_no_retry_on_5xx :
    makeRequest c1Outcomes =
      (.error ("GitLab API error 500: Internal Server Error"), 1) := by
  rfl

/-- The three `::set-output` lines printed to standard output by the
success path of `run` in src/entrypoints/prepare-gitlab.ts (lines 120-122):
the trigger decision, the resolved GitLab token, and the project id. -/
def runSetOutputLines (containsTrigger : Bool) (gitlabToken : String) (projectId : Int) :
    List String :=
  [ "::set-output name=contains_trigger::" ++ (if containsTrigger then "true" else "false"),
    "::set-output name=gitlab_token::" ++ gitlabToken,
    "::set-output name=project_id::" ++ toString projectId ]

/-- Claim C2 is violated by the code: a run of the prepare entrypoint that
reaches the output stage prints the credential's full token value to
standard output, as the line `::set-output name=gitlab_token::<token>`
(src/entrypoints/prepare-gitlab.ts line 121) — here concretely for the
token `glpat-s3cr3t-value`, whose full text is the suffix of an emitted
stdout line, so two runs differing only in the token produce
distinguishable, token-revealing output. -/
theorem run_logs_full_token_c2 :
    ("::set-output name=gitlab_token::" ++ "glpat-s3cr3t-value" ∈
      runSetOutputLines true "glpat-s3cr3t-value" 123) ∧
    runSetOutputLines true "glpat-s3cr3t-value" 123 =
      [ "::set-output name=contains_trigger::true",
        "::set-output name=gitlab_token::" ++ "glpat-s3cr3t-value",
        "::set-output name=project_id::123" ] := by
  constructor
  · simp [runSetOutputLines]
  · rfl

/-- The `commit` object inside a GitLab branch payload. -/
structure GitLabBranchCommit where
  id : String
  message : String
  author_name : String
  author_email : String
  authored_date : String
deriving DecidableEq, Repr

/-- The GitLab branch payload (`GitLabBranch` in the sources). The source
field `protected` is a reserved word in Lean and is named `prot` here. -/
structure GitLabBranch where
  name : String
  commit : GitLabBranchCommit
  prot : Bool
deriving DecidableEq, Repr

/-- A create-branch POST issued by `getOrCreateBranchRef`: target branch
name and the ref (commit id) it is created from. -/
structure CreateBranchCall where
  branch : String
  ref : String
deriving DecidableEq, Repr

/-- The forge as seen by one run of `getOrCreateBranchRef`: the outcome of
a branch GET by name (`.error status` for a non-ok response), the project
GET reduced to its `default_branch` field, and the outcome of a
create-branch POST (`.error (status, errorText)` for a non-ok response).
The world is read-only state; mutating requests are reported in the result
trace instead. -/
structure GitLabWorld where
  getBranch : String → Except Nat GitLabBranch
  projectDefaultBranch : Except Nat String
  createBranch : CreateBranchCall → Except (Nat × String) Unit

/-- Embedding of `getOrCreateBranchRef` (the MCP server's branch helper):
GET the target branch; if ok, return its head commit id. On a non-404
failure, throw. On 404, resolve the base branch as
`process.env.BASE_BRANCH || "main"` and GET it; if that GET is not ok (any
failure), GET the project's `default_branch` and GET that branch; then POST
a create-branch for the target from the resolved base head commit and
return that commit id. The second component lists the mutating
(create-branch POST) requests issued, in order. -/
def getOrCreateBranchRef (w : GitLabWorld) (baseBranchVar : Option String)
    (branchName : String) : Except String String × List CreateBranchCall :=
  match w.getBranch branchName with
  | .ok branchData => (.ok branchData.commit.id, [])
  | .error status =>
    if status ≠ 404 then
      (.error ("Failed to get branch: " ++ toString status), [])
    else
      let baseBranch := jsOrD baseBranchVar "main"
      let baseCommitIdResult : Except String String :=
        match w.getBranch baseBranch with
        | .ok baseBranchData => .ok baseBranchData.commit.id
        | .error _ =>
          match w.projectDefaultBranch with
          | .error s => .error ("Failed to get project info: " ++ toString s)
          | .ok defaultBranch =>
            match w.getBranch defaultBranch with
            | .ok defaultBranchData => .ok defaultBranchData.commit.id
            | .error s => .error ("Failed to get default branch: " ++ toString s)
      match baseCommitIdResult with
      | .error e => (.error e, [])
      | .ok baseCommitId =>
        match w.createBranch ⟨branchName, baseCommitId⟩ with
        | .error (s, txt) =>
          (.error ("Failed to create branch: " ++ toString s ++ " - " ++ txt),
            [⟨branchName, baseCommitId⟩])
        | .ok _ => (.ok baseCommitId, [⟨branchName, baseCommitId⟩])

/-- Claim C9: when the target branch already exists, `getOrCreateBranchRef`
returns the existing branch's head commit id and issues no mutating
request (empty create trace). Since the call leaves the forge unchanged, a
second call in succession runs against the same world and returns the same
result — idempotence. -/
theorem getOrCreateBranchRef_idempotent (w : GitLabWorld) (baseBranchVar : Option String)
    (branchName : String) (b : GitLabBranch)
    (h : w.getBranch branchName = .ok b) :
    getOrCreateBranchRef w baseBranchVar branchName = (.ok b.commit.id, []) := by
  unfold getOrCreateBranchRef
  rw [h]

/-- A world in which the target branch `claude/fix` already exists. -/
def worldExisting : GitLabWorld :=
  { getBranch := fun n =>
      if n = "claude/fix" then
        .ok ⟨"claude/fix", ⟨"abc123", "msg", "a", "a@x", "2024-01-01"⟩, false⟩
      else .error 404
    projectDefaultBranch := .ok "main"
    createBranch := fun _ => .ok () }

theorem getOrCreateBranchRef_idempotent_witness :
    getOrCreateBranchRef worldExisting none "claude/fix" = (.ok "abc123", []) :=
  getOrCreateBranchRef_idempotent worldExisting none "claude/fix"
    ⟨"claude/fix", ⟨"abc123", "msg", "a", "a@x", "2024-01-01"⟩, false⟩ rfl

/-- A world for the C8 counterexample: the target branch returns 404, no
explicit base-branch override is set, the project's default branch is
`develop` (head `D`), yet a branch literally named `main` also exists with
a different head `M`; branch creation succeeds. -/
def worldC8 : GitLabWorld :=
  { getBranch := fun n =>
      if n = "main" then .ok ⟨"main", ⟨"M", "m", "a", "a@x", "2024-01-01"⟩, false⟩
      else if n = "develop" then .ok ⟨"develop", ⟨"D", "d", "a", "a@x", "2024-01-01"⟩, true⟩
      else .error 404
    projectDefaultBranch := .ok "develop"
    createBranch := fun _ => .ok () }

/-- Claim C8 counterexample: in `worldC8` the explicit override is unset,
so by the claim the base branch is the default branch reported by the
project (`develop`, head commit `D`) and the call should create from and
return `D`. The code instead resolves the base as the literal `"main"`
(`process.env.BASE_BRANCH || "main"`), which exists here, so it creates
from and returns `M ≠ D`; the project-reported default branch is only a
second-stage fallback used when the `main` lookup fails. -/
theorem getOrCreateBranchRef_c8_counterexample :
    getOrCreateBranchRef worldC8 none "claude/task" = (.ok "M", [⟨"claude/task", "M"⟩]) ∧
    worldC8.projectDefaultBranch = .ok "develop" ∧
    Except.map (fun b => b.commit.id) (worldC8.getBranch "develop") = .ok "D" ∧
    ("M" : String) ≠ "D" := by
  refine ⟨rfl, rfl, rfl, by decide⟩

/-- Claim C8 (amended): when the target branch read returns 404, the base
branch is resolved as the explicit override when set, else the LITERAL
branch name `main`; the project-reported default branch is used only when
that base branch's lookup itself fails. In either case the target branch
is created from the resolved base's head commit and that commit id is
returned (and is the single mutating request issued). -/
theorem getOrCreateBranchRef_notFound_fallback (w : GitLabWorld)
    (baseBranchVar : Option String) (branchName : String)
    (h404 : w.getBranch branchName = .error 404) :
    (∀ b, w.getBranch (jsOrD baseBranchVar "main") = .ok b →
      w.createBranch ⟨branchName, b.commit.id⟩ = .ok () →
      getOrCreateBranchRef w baseBranchVar branchName =
        (.ok b.commit.id, [⟨branchName, b.commit.id⟩])) ∧
    (∀ s d b, w.getBranch (jsOrD baseBranchVar "main") = .error s →
      w.projectDefaultBranch = .ok d →
      w.getBranch d = .ok b →
      w.createBranch ⟨branchName, b.commit.id⟩ = .ok () →
      getOrCreateBranchRef w baseBranchVar branchName =
        (.ok b.commit.id, [⟨branchName, b.commit.id⟩])) := by
  constructor
  · intro b hbase hcreate
    unfold getOrCreateBranchRef
    rw [h404]
    simp [hbase, hcreate]
  · intro s d b hbase hdef hdefb hcreate
    unfold getOrCreateBranchRef
    rw [h404]
    simp [hbase, hdef, hdefb, hcreate]

/-- A world for end-to-end scenario 5: the target branch returns 404, the
base branch `main` resolves with head `base777`, and branch creation
succeeds. -/
def worldScenario5 : GitLabWorld :=
  { getBranch := fun n =>
      if n = "main" then .ok ⟨"main", ⟨"base777", "m", "a", "a@x", "2024-01-01"⟩, false⟩
      else .error 404
    projectDefaultBranch := .ok "main"
    createBranch := fun _ => .ok () }

theorem getOrCreateBranchRef_notFound_fallback_witness :
    getOrCreateBranchRef worldScenario5 none "claude/new" =
      (.ok "base777", [⟨"claude/new", "base777"⟩]) :=
  (getOrCreateBranchRef_notFound_fallback worldScenario5 none "claude/new" rfl).1
    ⟨"main", ⟨"base777", "m", "a", "a@x", "2024-01-01"⟩, false⟩ rfl rfl

/-- The entity kind accepted by comment operations
(`"merge_request" | "issue"` in the shared types). -/
inductive CommentEntityType where
  | merge_request
  | issue
deriving DecidableEq, Repr

/-- The three fields owned by a `GitLabApiClient` instance. -/
structure GitLabApiClient where
  token : String
  projectId : Int
  baseUrl : String
deriving DecidableEq, Repr

/-- The HTTP request that `makeRequest` would issue for an API-client
method: method, endpoint (appended to the base URL), and the comment body
that is JSON-wrapped into the request payload. -/
structure ApiRequest where
  method : String
  endpoint : String
  body : String
deriving DecidableEq, Repr

/-- Embedding of `GitLabApiClient.updateComment`
(src/platforms/gitlab/api/client.ts lines 142-164). In the source, both
`entityId` and `entityType` are declared optional (matching the shared
`PlatformApiClient` interface) and the guard is `!entityId || !entityType`
— JS truthiness, so an omitted value AND a supplied `entityId` of 0 both
trigger the throw. A `.error` result is the throw before any HTTP request
is constructed or issued; a `.ok` result carries the PUT request that is
then handed to `makeRequest`, routed to the merge-request or issue notes
endpoint according to `entityType`. -/
def GitLabApiClient.updateComment (c : GitLabApiClient) (noteId : Int) (body : String)
    (entityId : Option Int) (entityType : Option CommentEntityType) :
    Except String ApiRequest :=
  match entityId, entityType with
  | some i, some t =>
    if i = 0 then
      .error "entityId and entityType are required for GitLab updateComment"
    else
      let endpoint :=
        match t with
        | .merge_request =>
          "/projects/" ++ toString c.projectId ++ "/merge_requests/" ++ toString i ++
            "/notes/" ++ toString noteId
        | .issue =>
          "/projects/" ++ toString c.projectId ++ "/issues/" ++ toString i ++
            "/notes/" ++ toString noteId
      .ok { method := "PUT", endpoint := endpoint, body := body }
  | _, _ => .error "entityId and entityType are required for GitLab updateComment"

/-- A concrete client instance for the C10 theorems. -/
def clientC10 : GitLabApiClient :=
  { token := "tok", projectId := 42, baseUrl := "https://gitlab.com/api/v4" }

/-- Claim C10 counterexample: the claim states that whenever both
`entityId` and `entityType` are supplied the update is routed to the notes
endpoint selected by `entityType`; but for the supplied value
`entityId = 0` (falsy in JS) the guard `!entityId || !entityType` throws
instead, so no request is issued. -/
theorem updateComment_zero_counterexample :
    clientC10.updateComment 5 "hello" (some 0) (some .issue) =
      .error "entityId and entityType are required for GitLab updateComment" := by
  rfl

/-- Claim C10 (amended): `updateComment` fails with an error before issuing
any HTTP request whenever `entityId` or `entityType` is omitted — and also
for the supplied falsy value `entityId = 0`; when both are supplied and
`entityId` is non-zero, the update is routed as a PUT to the merge-request
or issue notes endpoint according to `entityType`. -/
theorem updateComment_spec (c : GitLabApiClient) (noteId : Int) (body : String)
    (entityId : Option Int) (entityType : Option CommentEntityType) :
    ((entityId = none ∨ entityType = none) →
      c.updateComment noteId body entityId entityType =
        .error "entityId and entityType are required for GitLab updateComment") ∧
    (∀ i t, entityId = some i → i ≠ 0 → entityType = some t →
      c.updateComment noteId body entityId entityType =
        .ok { method := "PUT"
              endpoint :=
                match t with
                | .merge_request =>
                  "/projects/" ++ toString c.projectId ++ "/merge_requests/" ++
                    toString i ++ "/notes/" ++ toString noteId
                | .issue =>
                  "/projects/" ++ toString c.projectId ++ "/issues/" ++
                    toString i ++ "/notes/" ++ toString noteId
              body := body }) := by
  constructor
  · intro h
    rcases h with h | h
    · subst h
      cases entityType <;> simp [GitLabApiClient.updateComment]
    · subst h
      cases entityId <;> simp [GitLabApiClient.updateComment]
  · intro i t hi hne ht
    subst hi
    subst ht
    cases t <;> simp [GitLabApiClient.updateComment, hne]

theorem updateComment_spec_witness :
    clientC10.updateComment 5 "hello" none none =
        .error "entityId and entityType are required for GitLab updateComment" ∧
    clientC10.updateComment 5 "hello" (some 7) (some .merge_request) =
        .ok { method := "PUT", endpoint := "/projects/42/merge_requests/7/notes/5",
              body := "hello" } := by
  constructor
  · exact (updateComment_spec clientC10 5 "hello" none none).1 (Or.inl rfl)
  · have h := (updateComment_spec clientC10 5 "hello" (some 7)
      (some CommentEntityType.merge_request)).2 7 CommentEntityType.merge_request
      rfl (by decide) rfl
    simpa using h
